import Mathlib

/-!
# Locations of UEFI files (src/uefi.c)

The source file defines three sentinel-terminated arrays of
`struct uefi_firmware`.  Each array is embedded as a list of records, written
entry by entry with the same brace-enclosed initialiser lists as the C source;
a `const char *` member is an `Option String`, with `NULL` as `none`.
-/

namespace Uefi

/-- Modelled from the spec: `struct uefi_firmware` is declared in
guestfs-internal-frontend.h, which is not among the sources.  Following the
FirmwareCandidate entity of the spec, it has three nullable path members, in
this order: the code image, the verbose code image and the vars image. -/
structure uefi_firmware where
  code_path : Option String
  verbose_code_path : Option String
  vars_path : Option String
deriving DecidableEq, Repr

/-- C aggregate initialisation of a `struct uefi_firmware` from a brace-enclosed
initialiser list: the listed values go to the members in declaration order, and
a member left without an initialiser becomes a null pointer. -/
def uefi_firmware.init (l : List (Option String)) : uefi_firmware :=
  { code_path := l.getD 0 none
    verbose_code_path := l.getD 1 none
    vars_path := l.getD 2 none }

/-- The array `guestfs_int_ovmf_i386_firmware[]` of uefi.c. -/
def guestfs_int_ovmf_i386_firmware : List uefi_firmware := [
  .init [ none ]
]

/-- The array `guestfs_int_ovmf_x86_64_firmware[]` of uefi.c. -/
def guestfs_int_ovmf_x86_64_firmware : List uefi_firmware := [
  .init [ some "/usr/share/OVMF/OVMF_CODE.fd",
          none,
          some "/usr/share/OVMF/OVMF_VARS.fd" ],

  .init [ some "/usr/share/edk2/ovmf/OVMF_CODE.fd",
          none,
          some "/usr/share/edk2/ovmf/OVMF_VARS.fd" ],

  .init [ none ]
]

/-- The array `guestfs_int_aavmf_firmware[]` of uefi.c. -/
def guestfs_int_aavmf_firmware : List uefi_firmware := [
  .init [ some "/usr/share/AAVMF/AAVMF_CODE.fd",
          some "/usr/share/AAVMF/AAVMF_CODE.verbose.fd",
          some "/usr/share/AAVMF/AAVMF_VARS.fd" ],

  .init [ some "/usr/share/edk2/aarch64/QEMU_EFI-pflash.raw",
          none,
          some "/usr/share/edk2/aarch64/vars-template-pflash.raw" ],

  .init [ none ]
]

/-! ## Vocabulary of the properties -/

/-- The three arrays defined by uefi.c, in the order of the file. -/
def firmware_tables : List (List uefi_firmware) :=
  [guestfs_int_ovmf_i386_firmware, guestfs_int_ovmf_x86_64_firmware,
   guestfs_int_aavmf_firmware]

/-- The real candidates of a table: the entries whose code path is present. -/
def real_candidates (t : List uefi_firmware) : List uefi_firmware :=
  t.filter (fun e => e.code_path.isSome)

/-- The paths of an entry that are present, in member order. -/
def present_paths (e : uefi_firmware) : List String :=
  [e.code_path, e.verbose_code_path, e.vars_path].reduceOption

/-- Whether the path `s` begins with the characters of `p`. -/
def path_begins_with (p s : String) : Bool :=
  p.data.isPrefixOf s.data

/-- The directory part of a path: its characters up to and including the last
slash (empty when the path has no slash). -/
def dir_part (s : String) : List Char :=
  (s.data.reverse.dropWhile (fun c => c != '/')).reverse

/-! ## Sanity checks of the embedding -/

example : uefi_firmware.init [none] = ⟨none, none, none⟩ := rfl
example : guestfs_int_ovmf_i386_firmware.length = 1 := by decide
example : guestfs_int_ovmf_x86_64_firmware.length = 3 := by decide
example : guestfs_int_aavmf_firmware.length = 3 := by decide
example : dir_part "/usr/share/OVMF/OVMF_CODE.fd" = "/usr/share/OVMF/".data := by decide
example : dir_part "plain" = [] := by decide
example : path_begins_with "/usr/share/edk2/" "/usr/share/edk2/ovmf/OVMF_CODE.fd" = true := by
  decide
example : path_begins_with "/usr/share/edk2/" "/usr/share/OVMF/OVMF_CODE.fd" = false := by
  decide

/-! ## Shared lemma -/

/-- Membership in the list of tables, unfolded. -/
theorem mem_firmware_tables (t : List uefi_firmware) (ht : t ∈ firmware_tables) :
    t = guestfs_int_ovmf_i386_firmware ∨ t = guestfs_int_ovmf_x86_64_firmware ∨
      t = guestfs_int_aavmf_firmware := by
  simpa [firmware_tables] using ht

/-! ## The claims -/

/-- C1: every one of the three tables is non-empty, its last entry has an absent
code path, every entry at an index before the last has a present code path, and
the first index with an absent code path is the last valid index of the array,
so it lies inside the array. -/
theorem tables_sentinel_terminated (t : List uefi_firmware) (ht : t ∈ firmware_tables) :
    t ≠ [] ∧
    (∃ e, t.getLast? = some e ∧ e.code_path = none) ∧
    (∀ i : Fin t.length, i.val + 1 < t.length → (t.get i).code_path ≠ none) ∧
    t.findIdx (fun e => e.code_path.isNone) = t.length - 1 ∧
    t.findIdx (fun e => e.code_path.isNone) < t.length := by
  rcases mem_firmware_tables t ht with rfl | rfl | rfl
  · refine ⟨by decide, ⟨_, rfl, rfl⟩, by decide, by decide, by decide⟩
  · refine ⟨by decide, ⟨_, rfl, rfl⟩, by decide, by decide, by decide⟩
  · refine ⟨by decide, ⟨_, rfl, rfl⟩, by decide, by decide, by decide⟩

/-- Witness of C1 at the x86_64 table and its index 1. -/
theorem tables_sentinel_terminated_witness :
    guestfs_int_ovmf_x86_64_firmware ∈ firmware_tables ∧
    (1 : Nat) + 1 < guestfs_int_ovmf_x86_64_firmware.length ∧
    (guestfs_int_ovmf_x86_64_firmware.get ⟨1, by decide⟩).code_path ≠ none ∧
    guestfs_int_ovmf_x86_64_firmware.findIdx (fun e => e.code_path.isNone) = 2 :=
  ⟨by decide, by decide,
   (tables_sentinel_terminated guestfs_int_ovmf_x86_64_firmware (by decide)).2.2.1
      ⟨1, by decide⟩ (by decide),
   (tables_sentinel_terminated guestfs_int_ovmf_x86_64_firmware (by decide)).2.2.2.1⟩

/-- C2: the x86_64 table is exactly the OVMF candidate, the edk2 candidate and
the sentinel, in that order; it has three entries, two of them real candidates,
and each real candidate has an absent verbose code path and a present vars
path. -/
theorem x86_64_table_contents :
    guestfs_int_ovmf_x86_64_firmware =
      [ ⟨some "/usr/share/OVMF/OVMF_CODE.fd", none, some "/usr/share/OVMF/OVMF_VARS.fd"⟩,
        ⟨some "/usr/share/edk2/ovmf/OVMF_CODE.fd", none,
         some "/usr/share/edk2/ovmf/OVMF_VARS.fd"⟩,
        ⟨none, none, none⟩ ] ∧
    guestfs_int_ovmf_x86_64_firmware.length = 3 ∧
    (real_candidates guestfs_int_ovmf_x86_64_firmware).length = 2 ∧
    real_candidates guestfs_int_ovmf_x86_64_firmware =
      guestfs_int_ovmf_x86_64_firmware.take 2 ∧
    ((real_candidates guestfs_int_ovmf_x86_64_firmware).all
      (fun e => e.verbose_code_path.isNone && e.vars_path.isSome)) = true := by
  refine ⟨rfl, by decide, by decide, by decide, by decide⟩

/-- C3: the aarch64 (AAVMF) table is the AAVMF candidate with a present verbose
code path, then the edk2 candidate with an absent verbose code path, then the
sentinel; it has exactly two real candidates. -/
theorem aavmf_table_contents :
    guestfs_int_aavmf_firmware =
      [ ⟨some "/usr/share/AAVMF/AAVMF_CODE.fd",
         some "/usr/share/AAVMF/AAVMF_CODE.verbose.fd",
         some "/usr/share/AAVMF/AAVMF_VARS.fd"⟩,
        ⟨some "/usr/share/edk2/aarch64/QEMU_EFI-pflash.raw", none,
         some "/usr/share/edk2/aarch64/vars-template-pflash.raw"⟩,
        ⟨none, none, none⟩ ] ∧
    guestfs_int_aavmf_firmware.length = 3 ∧
    (real_candidates guestfs_int_aavmf_firmware).length = 2 ∧
    real_candidates guestfs_int_aavmf_firmware = guestfs_int_aavmf_firmware.take 2 ∧
    (real_candidates guestfs_int_aavmf_firmware).map
      (fun e => e.verbose_code_path.isSome) = [true, false] := by
  refine ⟨rfl, by decide, by decide, by decide, by decide⟩

/-- C4: the i386 table has exactly one entry, that entry is the sentinel (its
code path is absent), and the table has no real candidate. -/
theorem i386_table_contents :
    guestfs_int_ovmf_i386_firmware.length = 1 ∧
    guestfs_int_ovmf_i386_firmware = [⟨none, none, none⟩] ∧
    (guestfs_int_ovmf_i386_firmware.map (fun e => e.code_path)) = [none] ∧
    real_candidates guestfs_int_ovmf_i386_firmware = [] ∧
    (real_candidates guestfs_int_ovmf_i386_firmware).length = 0 := by
  refine ⟨by decide, rfl, rfl, by decide, by decide⟩

/-- C5: in every table, every entry whose code path is present has a vars path
that is present and is not the empty string. -/
theorem real_candidate_has_vars (t : List uefi_firmware) (ht : t ∈ firmware_tables)
    (e : uefi_firmware) (he : e ∈ t) (hc : e.code_path ≠ none) :
    ∃ v, e.vars_path = some v ∧ v ≠ "" ∧ 0 < v.length := by
  rcases mem_firmware_tables t ht with rfl | rfl | rfl
  · simp [guestfs_int_ovmf_i386_firmware, uefi_firmware.init] at he
    subst he
    exact absurd rfl hc
  · simp [guestfs_int_ovmf_x86_64_firmware, uefi_firmware.init] at he
    rcases he with rfl | rfl | rfl
    · exact ⟨_, rfl, by decide, by decide⟩
    · exact ⟨_, rfl, by decide, by decide⟩
    · exact absurd rfl hc
  · simp [guestfs_int_aavmf_firmware, uefi_firmware.init] at he
    rcases he with rfl | rfl | rfl
    · exact ⟨_, rfl, by decide, by decide⟩
    · exact ⟨_, rfl, by decide, by decide⟩
    · exact absurd rfl hc

/-- Witness of C5 at the second entry of the aarch64 table. -/
theorem real_candidate_has_vars_witness :
    guestfs_int_aavmf_firmware ∈ firmware_tables ∧
    uefi_firmware.init [ some "/usr/share/edk2/aarch64/QEMU_EFI-pflash.raw", none,
        some "/usr/share/edk2/aarch64/vars-template-pflash.raw" ]
      ∈ guestfs_int_aavmf_firmware ∧
    ∃ v, (uefi_firmware.init [ some "/usr/share/edk2/aarch64/QEMU_EFI-pflash.raw", none,
        some "/usr/share/edk2/aarch64/vars-template-pflash.raw" ]).vars_path = some v ∧
      v ≠ "" ∧ 0 < v.length :=
  ⟨by decide, by decide,
   real_candidate_has_vars guestfs_int_aavmf_firmware (by decide) _ (by decide) (by decide)⟩

/-- C6: in every table, for real candidates at indices i < j it is never the
case that the one at i has its code path under /usr/share/edk2/ while the one at
j has not; the code-path directories of the real candidates are, in order,
/usr/share/OVMF/ then /usr/share/edk2/ovmf/ for x86_64, and /usr/share/AAVMF/
then /usr/share/edk2/aarch64/ for aarch64. -/
theorem packaged_before_edk2 (t : List uefi_firmware) (ht : t ∈ firmware_tables)
    (i j : Fin t.length) (hij : i < j) (ci cj : String)
    (hi : (t.get i).code_path = some ci) (hj : (t.get j).code_path = some cj) :
    ¬ (path_begins_with "/usr/share/edk2/" ci = true ∧
        path_begins_with "/usr/share/edk2/" cj = false) ∧
    (real_candidates guestfs_int_ovmf_x86_64_firmware).map
        (fun e => e.code_path.map dir_part) =
      [some "/usr/share/OVMF/".data, some "/usr/share/edk2/ovmf/".data] ∧
    (real_candidates guestfs_int_aavmf_firmware).map
        (fun e => e.code_path.map dir_part) =
      [some "/usr/share/AAVMF/".data, some "/usr/share/edk2/aarch64/".data] := by
  refine ⟨?_, by decide, by decide⟩
  rintro ⟨h1, h2⟩
  have key : ∀ a b : Fin t.length, a < b →
      ¬ ((t.get a).code_path.map (path_begins_with "/usr/share/edk2/") = some true ∧
         (t.get b).code_path.map (path_begins_with "/usr/share/edk2/") = some false) := by
    rcases mem_firmware_tables t ht with rfl | rfl | rfl <;> decide
  exact key i j hij ⟨by rw [hi]; exact congrArg some h1, by rw [hj]; exact congrArg some h2⟩

/-- Witness of C6 at the two real candidates of the x86_64 table. -/
theorem packaged_before_edk2_witness :
    guestfs_int_ovmf_x86_64_firmware ∈ firmware_tables ∧
    (guestfs_int_ovmf_x86_64_firmware.get ⟨0, by decide⟩).code_path =
      some "/usr/share/OVMF/OVMF_CODE.fd" ∧
    (guestfs_int_ovmf_x86_64_firmware.get ⟨1, by decide⟩).code_path =
      some "/usr/share/edk2/ovmf/OVMF_CODE.fd" ∧
    ¬ (path_begins_with "/usr/share/edk2/" "/usr/share/OVMF/OVMF_CODE.fd" = true ∧
        path_begins_with "/usr/share/edk2/" "/usr/share/edk2/ovmf/OVMF_CODE.fd" = false) :=
  ⟨by decide, rfl, rfl,
   (packaged_before_edk2 guestfs_int_ovmf_x86_64_firmware (by decide)
      ⟨0, by decide⟩ ⟨1, by decide⟩ (by decide) _ _ rfl rfl).1⟩

/-- C9: the sentinel written with the single initialiser NULL has all three
members absent, and in every table an entry whose code path is absent is that
sentinel: its verbose code path and its vars path are absent too. -/
theorem sentinel_all_absent (t : List uefi_firmware) (ht : t ∈ firmware_tables)
    (e : uefi_firmware) (he : e ∈ t) (hc : e.code_path = none) :
    uefi_firmware.init [none] = ⟨none, none, none⟩ ∧
    e = uefi_firmware.init [none] ∧
    e.verbose_code_path = none ∧ e.vars_path = none := by
  have key : ∀ x ∈ t, x.code_path = none →
      x = uefi_firmware.init [none] ∧ x.verbose_code_path = none ∧ x.vars_path = none := by
    rcases mem_firmware_tables t ht with rfl | rfl | rfl <;> decide
  exact ⟨rfl, key e he hc⟩

/-- Witness of C9 at the last entry of the aarch64 table. -/
theorem sentinel_all_absent_witness :
    guestfs_int_aavmf_firmware ∈ firmware_tables ∧
    uefi_firmware.init [none] ∈ guestfs_int_aavmf_firmware ∧
    (uefi_firmware.init [none]).code_path = none ∧
    (uefi_firmware.init [none]).verbose_code_path = none ∧
    (uefi_firmware.init [none]).vars_path = none :=
  ⟨by decide, by decide, rfl,
   (sentinel_all_absent guestfs_int_aavmf_firmware (by decide) _ (by decide) rfl).2.2⟩

/-- C10: the code paths of the real candidates of the three tables are pairwise
distinct, and for every real candidate of every table each present path begins
with /usr/share/ (so with a slash: it is absolute), the present paths all have
the same directory part, and they are pairwise distinct. -/
theorem paths_well_formed :
    ((firmware_tables.map real_candidates).flatten.filterMap
        (fun e => e.code_path)).Nodup ∧
    ((firmware_tables.map real_candidates).flatten.filterMap
        (fun e => e.code_path)).length = 4 ∧
    ∀ t ∈ firmware_tables, ∀ e ∈ t, e.code_path ≠ none →
      (∀ p ∈ present_paths e,
          path_begins_with "/usr/share/" p = true ∧ p.data.head? = some '/') ∧
      (∀ p ∈ present_paths e, ∀ q ∈ present_paths e, dir_part p = dir_part q) ∧
      (present_paths e).Nodup := by
  refine ⟨by decide, by decide, ?_⟩
  intro t ht
  rcases mem_firmware_tables t ht with rfl | rfl | rfl <;> decide

/-- Witness of C10 at the first entry of the aarch64 table, whose three paths
are all present. -/
theorem paths_well_formed_witness :
    guestfs_int_aavmf_firmware ∈ firmware_tables ∧
    uefi_firmware.init [ some "/usr/share/AAVMF/AAVMF_CODE.fd",
        some "/usr/share/AAVMF/AAVMF_CODE.verbose.fd",
        some "/usr/share/AAVMF/AAVMF_VARS.fd" ] ∈ guestfs_int_aavmf_firmware ∧
    "/usr/share/AAVMF/AAVMF_CODE.verbose.fd" ∈ present_paths (uefi_firmware.init
      [ some "/usr/share/AAVMF/AAVMF_CODE.fd",
        some "/usr/share/AAVMF/AAVMF_CODE.verbose.fd",
        some "/usr/share/AAVMF/AAVMF_VARS.fd" ]) ∧
    "/usr/share/AAVMF/AAVMF_VARS.fd" ∈ present_paths (uefi_firmware.init
      [ some "/usr/share/AAVMF/AAVMF_CODE.fd",
        some "/usr/share/AAVMF/AAVMF_CODE.verbose.fd",
        some "/usr/share/AAVMF/AAVMF_VARS.fd" ]) ∧
    path_begins_with "/usr/share/" "/usr/share/AAVMF/AAVMF_CODE.verbose.fd" = true ∧
    dir_part "/usr/share/AAVMF/AAVMF_CODE.verbose.fd" =
      dir_part "/usr/share/AAVMF/AAVMF_VARS.fd" := by
  have h := paths_well_formed.2.2 guestfs_int_aavmf_firmware (by decide)
    (uefi_firmware.init [ some "/usr/share/AAVMF/AAVMF_CODE.fd",
        some "/usr/share/AAVMF/AAVMF_CODE.verbose.fd",
        some "/usr/share/AAVMF/AAVMF_VARS.fd" ]) (by decide) (by decide)
  exact ⟨by decide, by decide, by decide, by decide,
    (h.1 "/usr/share/AAVMF/AAVMF_CODE.verbose.fd" (by decide)).1,
    h.2.1 "/usr/share/AAVMF/AAVMF_CODE.verbose.fd" (by decide)
      "/usr/share/AAVMF/AAVMF_VARS.fd" (by decide)⟩

end Uefi
